import Mathlib

/-!
Verification of the Check_MK GUI valuespec library (`src/cmk/gui/valuespec.py`)
and the check-parameter registration / check-API helpers that accompany it.

The Python code is shallowly embedded: Python run-time values are modelled by
`PyVal`, the relevant `ValueSpec` classes by the inductive `VS`/`VSBody`, and
the methods `canonical_value`, `default_value`, `validate_datatype`,
`validate_value` and `value_to_text` by recursive Lean functions translated
from the Python method bodies.  Raising `MKUserError` is modelled with
`Except MKUserError`.  HTML rendering (`render_input`, `from_html_vars`) is
out of scope; where `value_to_text` calls into the HTML layer the embedding
notes the abstraction in a comment next to the definition.
-/

namespace Checkmk

/-- A Python run-time value, as far as the valuespec library observes it:
`None`, booleans, integers (Python 2 `int`/`long` collapsed into `Int`),
floats (modelled as rationals; IEEE special values such as NaN are not
represented), strings (`str` and `unicode` collapsed), lists, tuples and
string-keyed dictionaries (modelled as association lists). -/
inductive PyVal where
  | none
  | bool (b : Bool)
  | int (n : Int)
  | float (q : Rat)
  | str (s : String)
  | list (xs : List PyVal)
  | tuple (xs : List PyVal)
  | dict (entries : List (String × PyVal))

/-- A Python number that is either an `int` or a `float`, as in the
`Union[float, int]` type annotations of `Integer.__init__`. -/
inductive PyNum where
  | int (n : Int)
  | float (q : Rat)
deriving DecidableEq

def PyNum.toPyVal : PyNum → PyVal
  | .int n => .int n
  | .float q => .float q

/-- Python truthiness of a number: zero is falsy (`if self._minvalue:`). -/
def PyNum.isTruthy : PyNum → Bool
  | .int n => n ≠ 0
  | .float q => q ≠ 0

/-- `MKUserError(varname, message)` from `cmk.gui.exceptions`. -/
structure MKUserError where
  varname : String
  message : String
deriving DecidableEq

/-- Numeric view used by Python `==`: `bool`, `int` and `float` compare by
numeric value (`True == 1`, `1 == 1.0`). -/
def PyVal.asNum : PyVal → Option Rat
  | .bool b => some (if b then 1 else 0)
  | .int n => some (n : Rat)
  | .float q => some q
  | _ => Option.none

mutual

/-- Python `==` on the embedded values: numeric types compare by value,
containers compare element-wise, different non-numeric types are unequal. -/
def pyEq : PyVal → PyVal → Bool
  | .none, .none => true
  | .str a, .str b => a = b
  | .list a, .list b => pyEqList a b
  | .tuple a, .tuple b => pyEqList a b
  | .dict a, .dict b => pyEqEntries a b
  | a, b =>
    match a.asNum, b.asNum with
    | some x, some y => x = y
    | _, _ => false

def pyEqList : List PyVal → List PyVal → Bool
  | [], [] => true
  | a :: as', b :: bs' => pyEq a b && pyEqList as' bs'
  | _, _ => false

def pyEqEntries : List (String × PyVal) → List (String × PyVal) → Bool
  | [], [] => true
  | (ka, va) :: as', (kb, vb) :: bs' => ka = kb && pyEq va vb && pyEqEntries as' bs'
  | _, _ => false

end

/-- First-match lookup in a dictionary, Python `value[param]` /
`param in value` on a `dict`. -/
def dictLookup (entries : List (String × PyVal)) (key : String) : Option PyVal :=
  match entries with
  | [] => Option.none
  | (k, v) :: rest => if k = key then some v else dictLookup rest key

/-- Insert one binding the way Python `dict` does: an existing key keeps its
position and gets the new value, a fresh key is appended. -/
def dictInsert (entries : List (String × PyVal)) (key : String) (v : PyVal) :
    List (String × PyVal) :=
  match entries with
  | [] => [(key, v)]
  | (k, w) :: rest =>
    if k = key then (k, v) :: rest else (k, w) :: dictInsert rest key v

/-- Build a Python `dict` from a key/value list (`dict([...])`): bindings are
inserted left to right, so later bindings of the same key overwrite earlier
ones. -/
def dictOfList (l : List (String × PyVal)) : List (String × PyVal) :=
  l.foldl (fun acc kv => dictInsert acc kv.1 kv.2) []

/-- The `default_value=...` constructor argument of `ValueSpec.__init__`:
either not passed (`_DEF_VALUE`, so the `_default_value` attribute is never
set), a plain value, or a zero-argument function whose evaluation may raise
(modelled by `Except String PyVal`). -/
inductive DefaultArg where
  | unset
  | value (v : PyVal)
  | func (f : Unit → Except String PyVal)

/-- The instance-supplied `validate=...` callback of `ValueSpec.__init__`:
`None` or a function `value, varprefix -> may raise MKUserError`. -/
abbrev ValidateArg := Option (PyVal → String → Except MKUserError Unit)

/-- `optional_keys` argument of `Dictionary.__init__`: a bool or a list of
key names (`Union[bool, List[str]]`). -/
inductive OptionalKeysArg where
  | flag (b : Bool)
  | keys (ks : List String)

mutual

/-- A valuespec instance: the `ValueSpec.__init__` arguments that the claims
observe (`default_value` and `validate`; `title` and `help` only affect
rendering and error-message texts and are omitted) together with the
class-specific data. -/
inductive VS where
  | mk (default : DefaultArg) (validate : ValidateArg) (body : VSBody)

/-- The class-specific constructor data of the embedded `ValueSpec`
subclasses.  Constructor arguments that none of `canonical_value`,
`default_value`, `validate_datatype`, `validate_value` or `value_to_text`
reads (sizes, labels, css, orientations, ...) are omitted; omitted arguments
that those methods do read (e.g. `TextAscii.regex`, `ListOfStrings
.max_entries`) are fixed at their Python default values. -/
inductive VSBody where
  /-- `FixedValue(value, totext=None)` -/
  | fixedValue (value : PyVal) (totext : Option String)
  /-- `Age(minvalue=None, maxvalue=None)`, annotated `Optional[int]` /
  `Optional[Union[int, float]]`; `maxvalue` is only used by
  `_validate_value`, where the comparison is numeric. -/
  | age (minvalue : Option Int) (maxvalue : Option PyNum)
  /-- `Integer(minvalue=None, maxvalue=None)`, both annotated
  `Optional[Union[float, int]]`. -/
  | integer (minvalue : Option PyNum) (maxvalue : Option PyNum)
  /-- `Float(minvalue=None, maxvalue=None, allow_int=False)` -/
  | float (minvalue : Option PyNum) (maxvalue : Option PyNum) (allow_int : Bool)
  /-- `Percentage(minvalue=0.0, maxvalue=101.0, allow_int=False)`; the
  `minvalue`/`maxvalue` defaults are supplied at construction sites. -/
  | percentage (minvalue : Option PyNum) (maxvalue : Option PyNum) (allow_int : Bool)
  /-- `Checkbox(true_label=None, false_label=None)` -/
  | checkbox (true_label : Option String) (false_label : Option String)
  /-- `TextAscii(none_is_empty=False, empty_text="")` -/
  | textAscii (none_is_empty : Bool) (empty_text : String)
  /-- `ListOfStrings(valuespec=None, empty_text="")`; a `None` inner
  valuespec defaults to `TextAscii(size=size)`. -/
  | listOfStrings (valuespec : Option VS) (empty_text : String)
  /-- `DropdownChoice(choices)` with a literal choice list of
  `(value, text)` pairs. -/
  | dropdownChoice (choices : List (PyVal × String))
  /-- `Optional(valuespec, none_value=None, none_label=None)` -/
  | optional (valuespec : VS) (none_value : PyVal) (none_label : Option String)
  /-- `Alternative(elements)` -/
  | alternative (elements : List VS)
  /-- `Tuple(elements)` -/
  | tuple (elements : List VS)
  /-- `Dictionary(elements, optional_keys=True, required_keys=None,
  ignored_keys=None, default_keys=None, migrate=None)` -/
  | dictionary (elements : List (String × VS)) (optional_keys : OptionalKeysArg)
      (required_keys : List String) (ignored_keys : List String)
      (default_keys : List String) (migrate : Option (PyVal → PyVal))
  /-- `Transform(valuespec, back=None, forth=None)` -/
  | transform (valuespec : VS) (back : Option (PyVal → PyVal))
      (forth : Option (PyVal → PyVal))

end

namespace VS

def default : VS → DefaultArg
  | .mk d _ _ => d

def validateArg : VS → ValidateArg
  | .mk _ v _ => v

def body : VS → VSBody
  | .mk _ _ b => b

end VS

/-- `Dictionary.__init__`: the effective `_required_keys`.  When
`optional_keys` is a non-empty list, `_required_keys` is overwritten with the
declared names that are not in that list; otherwise it stays
`required_keys or []`. -/
def dictRequiredKeys (elements : List (String × VS)) (optional_keys : OptionalKeysArg)
    (required_keys : List String) : List String :=
  match optional_keys with
  | .keys (k :: ks) => (elements.map Prod.fst).filter (fun name => name ∉ k :: ks)
  | .keys [] => required_keys
  | .flag _ => required_keys

/-- `Dictionary.__init__`: the effective `_optional_keys` flag.  A non-empty
`optional_keys` list and `optional_keys=True` both give `True`; `False` and
the empty list give `False`. -/
def dictOptionalFlag (optional_keys : OptionalKeysArg) : Bool :=
  match optional_keys with
  | .keys (_ :: _) => true
  | .keys [] => false
  | .flag b => b

/-- Python `float(x)` on a number (used by `Float.canonical_value`). -/
def pyFloat : PyVal → PyVal
  | .int n => .float (n : Rat)
  | .float q => .float q
  | .bool b => .float (if b then 1 else 0)
  | v => v

/-- Apply an optional conversion function, the identity when `None`
(`Transform.forth` / `Transform.back`). -/
def applyOpt (f : Option (PyVal → PyVal)) (v : PyVal) : PyVal :=
  match f with
  | some g => g v
  | Option.none => v

/-- `Integer.canonical_value`: `if self._minvalue: return self._minvalue`,
else `return 0`. -/
def integerCanonical (mv : Option PyNum) : PyVal :=
  match mv with
  | some num => if num.isTruthy then num.toPyVal else .int 0
  | Option.none => .int 0

mutual

/-- `canonical_value()` of each embedded class (`Percentage` inherits
`Float.canonical_value`, which wraps `Integer.canonical_value` in
`float(...)`). -/
def canonical_value : VS → PyVal
  | .mk _ _ b => canonicalBody b

def canonicalBody : VSBody → PyVal
  | .fixedValue v _ => v
  | .age mv _ =>
    -- `if self._minvalue: return self._minvalue` / `return 0`
    match mv with
    | some m => if m ≠ 0 then .int m else .int 0
    | Option.none => .int 0
  | .integer mv _ => integerCanonical mv
  | .float mv _ _ => pyFloat (integerCanonical mv)
  | .percentage mv _ _ => pyFloat (integerCanonical mv)
  | .checkbox _ _ => .bool false
  | .textAscii _ _ => .str ""
  | .listOfStrings _ _ => .list []
  | .dropdownChoice choices =>
    match choices with
    | (v, _) :: _ => v
    | [] => .none
  | .optional _ nv _ => nv
  | .alternative es =>
    -- `self._elements[0].canonical_value()`; an empty element list raises
    -- IndexError in Python and is mapped to `None` here.
    match es with
    | e :: _ => canonical_value e
    | [] => .none
  | .tuple es => .tuple (canonicalList es)
  | .dictionary elems ok rk _ _ _ =>
    .dict (dictOfList
      (canonicalDictEntries elems (dictRequiredKeys elems ok rk) (dictOptionalFlag ok)))
  | .transform inner back _ => applyOpt back (canonical_value inner)

def canonicalList : List VS → List PyVal
  | [] => []
  | e :: es => canonical_value e :: canonicalList es

/-- The `Dictionary.canonical_value` comprehension:
`(name, vs.canonical_value()) for (name, vs) in elements
 if name in _required_keys or not _optional_keys`. -/
def canonicalDictEntries : List (String × VS) → List String → Bool →
    List (String × PyVal)
  | [], _, _ => []
  | (name, vs) :: rest, req, opt =>
    if name ∈ req ∨ opt = false then
      (name, canonical_value vs) :: canonicalDictEntries rest req opt
    else
      canonicalDictEntries rest req opt

end

mutual

/-- `default_value()`.  `Tuple`, `Dictionary`, `Alternative` and `Transform`
override the base implementation; every other embedded class uses
`ValueSpec.default_value`, which returns the stored default (calling it when
it is a function) and falls back to `canonical_value()` when the attribute
is missing or the evaluation raises. -/
def default_value : VS → PyVal
  | .mk d _ b =>
    match b with
    | .tuple es => .tuple (defaultList es)
    | .dictionary elems ok rk _ dk _ =>
      .dict (dictOfList
        (defaultDictEntries elems (dictRequiredKeys elems ok rk) (dictOptionalFlag ok) dk))
    | .alternative es =>
      -- `Alternative.default_value` falls back to
      -- `self._elements[0].default_value()` instead of `canonical_value()`.
      match d with
      | .value v => v
      | .func f =>
        match f () with
        | .ok v => v
        | .error _ => altFirstDefault es
      | .unset => altFirstDefault es
    | .transform inner back _ => applyOpt back (default_value inner)
    | body =>
      match d with
      | .value v => v
      | .func f =>
        match f () with
        | .ok v => v
        | .error _ => canonicalBody body
      | .unset => canonicalBody body

def altFirstDefault : List VS → PyVal
  | e :: _ => default_value e
  | [] => .none

def defaultList : List VS → List PyVal
  | [] => []
  | e :: es => default_value e :: defaultList es

/-- The `Dictionary.default_value` loop: every name with
`name in _required_keys or not _optional_keys or name in _default_keys`
is bound to its element's `default_value()`. -/
def defaultDictEntries : List (String × VS) → List String → Bool → List String →
    List (String × PyVal)
  | [], _, _, _ => []
  | (name, vs) :: rest, req, opt, dk =>
    if name ∈ req ∨ opt = false ∨ name ∈ dk then
      (name, default_value vs) :: defaultDictEntries rest req opt dk
    else
      defaultDictEntries rest req opt dk

end

/-!
`validate_datatype`.  Error-message texts abbreviate the Python
`%`-interpolated messages (titles and `repr`s are not interpolated); the
claims only observe whether an `MKUserError` is raised, and its varname.
-/

def exceptOk {ε α : Type} : Except ε α → Bool
  | .ok _ => true
  | .error _ => false

/-- `isinstance(value, int)` / `isinstance(value, numbers.Integral)`:
Python 2 `bool` is a subclass of `int` (the embedded `.int` also stands for
`long`, which `numbers.Integral` covers). -/
def PyVal.isIntInstance : PyVal → Bool
  | .int _ => true
  | .bool _ => true
  | _ => false

def PyVal.isFloatInstance : PyVal → Bool
  | .float _ => true
  | _ => false

def PyVal.isStrInstance : PyVal → Bool
  | .str _ => true
  | _ => false

def PyVal.isBoolInstance : PyVal → Bool
  | .bool _ => true
  | _ => false

def PyVal.isNone : PyVal → Bool
  | .none => true
  | _ => false

/-- `FixedValue.validate_datatype`: `if not self._value == value: raise`. -/
def fixedValueValidate (fixed : PyVal) (value : PyVal) (vp : String) :
    Except MKUserError Unit :=
  if pyEq fixed value then .ok () else
    .error ⟨vp, "Invalid value, must be the fixed value but is different"⟩

/-- `Age.validate_datatype`: `isinstance(value, int)`. -/
def ageValidate (value : PyVal) (vp : String) : Except MKUserError Unit :=
  if value.isIntInstance then .ok () else
    .error ⟨vp, "The value has the wrong type, but must be of type int"⟩

/-- `Integer.validate_datatype`: `isinstance(value, numbers.Integral)`. -/
def integerValidate (value : PyVal) (vp : String) : Except MKUserError Unit :=
  if value.isIntInstance then .ok () else
    .error ⟨vp, "The value has the wrong type, but must be of type int"⟩

/-- `Float.validate_datatype`: a `float` is accepted, an `Integral` is
accepted when `allow_int` is set. -/
def floatValidate (allow_int : Bool) (value : PyVal) (vp : String) :
    Except MKUserError Unit :=
  if value.isFloatInstance then .ok ()
  else if value.isIntInstance ∧ allow_int then .ok ()
  else .error ⟨vp, "The value has the wrong type, but must be of type float"⟩

/-- `Percentage.validate_datatype`: with `allow_int`,
`isinstance(value, (int, float))`; otherwise `Float.validate_datatype`. -/
def percentageValidate (allow_int : Bool) (value : PyVal) (vp : String) :
    Except MKUserError Unit :=
  if allow_int then
    if value.isIntInstance ∨ value.isFloatInstance then .ok ()
    else .error ⟨vp, "The value has the wrong type, but must be either float or int"⟩
  else floatValidate false value vp

/-- `Checkbox.validate_datatype`: `isinstance(value, bool)`. -/
def checkboxValidate (value : PyVal) (vp : String) : Except MKUserError Unit :=
  if value.isBoolInstance then .ok () else
    .error ⟨vp, "The value has the wrong type, but must be of type bool"⟩

/-- `TextAscii.validate_datatype`: `None` is accepted when `none_is_empty`,
otherwise `isinstance(value, str)`. -/
def textAsciiValidate (none_is_empty : Bool) (value : PyVal) (vp : String) :
    Except MKUserError Unit :=
  if none_is_empty && value.isNone then .ok ()
  else if value.isStrInstance then .ok ()
  else .error ⟨vp, "The value must be of type str"⟩

/-- The `ListOfStrings.validate_datatype` entry loop for the default inner
valuespec `TextAscii(size=size)`. -/
def validateListEntriesDefault : List PyVal → String → Nat → Except MKUserError Unit
  | [], _, _ => .ok ()
  | x :: xs, vp, nr => do
    textAsciiValidate false x (vp ++ "_" ++ toString nr)
    validateListEntriesDefault xs vp (nr + 1)

/-- The `Dictionary.validate_datatype` exceeding-key loop:
every key of the value must be a declared element name or ignored. -/
def checkExceedingKeys : List String → List String → String → Except MKUserError Unit
  | [], _, _ => .ok ()
  | k :: ks, allowed, vp =>
    if k ∈ allowed then checkExceedingKeys ks allowed vp
    else .error ⟨vp, "Undefined key in the dictionary"⟩

mutual

/-- `validate_datatype(value, varprefix)` of each embedded class. -/
def validate_datatype : VS → PyVal → String → Except MKUserError Unit
  | .mk _ _ b, value, vp => validateBody b value vp

def validateBody : VSBody → PyVal → String → Except MKUserError Unit
  | .fixedValue v _, value, vp => fixedValueValidate v value vp
  | .age _ _, value, vp => ageValidate value vp
  | .integer _ _, value, vp => integerValidate value vp
  | .float _ _ allow_int, value, vp => floatValidate allow_int value vp
  | .percentage _ _ allow_int, value, vp => percentageValidate allow_int value vp
  | .checkbox _ _, value, vp => checkboxValidate value vp
  | .textAscii nie _, value, vp => textAsciiValidate nie value vp
  | .listOfStrings inner _, value, vp =>
    match value with
    | .list xs =>
      match inner with
      | some ivs => validateListEntries ivs xs vp 0
      | Option.none => validateListEntriesDefault xs vp 0
    | _ => .error ⟨vp, "Expected data type is list"⟩
  | .dropdownChoice _, _, _ =>
    -- `DropdownChoice` does not override `validate_datatype`; the base
    -- `ValueSpec.validate_datatype` is `pass`.
    .ok ()
  | .optional inner nv _, value, vp =>
    -- `if value != self._none_value: self._valuespec.validate_datatype(...)`
    if pyEq value nv = false then validate_datatype inner value (vp ++ "_value")
    else .ok ()
  | .alternative es, value, vp =>
    if altAnyAccepts es value then .ok ()
    else .error ⟨vp, "The data type of the value does not match any of the allowed alternatives."⟩
  | .tuple es, value, vp =>
    match value with
    | .tuple xs =>
      if xs.length ≠ es.length then
        .error ⟨vp, "The number of elements in the tuple must be exactly the declared one."⟩
      else validateTupleElems es xs vp 0
    | _ => .error ⟨vp, "The datatype must be a tuple"⟩
  | .dictionary elems ok rk ik _ mig, value, vp =>
    match applyOpt mig value with
    | .dict m => do
      validateDictElems elems m (dictRequiredKeys elems ok rk) (dictOptionalFlag ok) vp
      checkExceedingKeys (m.map Prod.fst) (elems.map Prod.fst ++ ik) vp
    | _ => .error ⟨vp, "The type must be a dictionary"⟩
  | .transform inner _ forth, value, vp =>
    validate_datatype inner (applyOpt forth value) vp

/-- The `ListOfStrings.validate_datatype` entry loop for an explicit inner
valuespec. -/
def validateListEntries : VS → List PyVal → String → Nat → Except MKUserError Unit
  | _, [], _, _ => .ok ()
  | ivs, x :: xs, vp, nr => do
    validate_datatype ivs x (vp ++ "_" ++ toString nr)
    validateListEntries ivs xs vp (nr + 1)

/-- The `Alternative.validate_datatype` loop: try every element with
varprefix `""` and succeed on the first that does not raise. -/
def altAnyAccepts : List VS → PyVal → Bool
  | [], _ => false
  | e :: es, v => exceptOk (validate_datatype e v "") || altAnyAccepts es v

/-- The `Tuple.validate_datatype` component loop
(`for no, (element, val) in enumerate(zip(...))`; `zip` stops at the shorter
list). -/
def validateTupleElems : List VS → List PyVal → String → Nat → Except MKUserError Unit
  | [], _, _, _ => .ok ()
  | _ :: _, [], _, _ => .ok ()
  | e :: es, x :: xs, vp, no => do
    validate_datatype e x (vp ++ "_" ++ toString no)
    validateTupleElems es xs vp (no + 1)

/-- The `Dictionary.validate_datatype` element loop: a present declared key
is checked with its element valuespec (the Python code re-raises the element
error with the element title prefixed to the message; titles are omitted
here, so the error passes through), an absent one raises when required. -/
def validateDictElems : List (String × VS) → List (String × PyVal) →
    List String → Bool → String → Except MKUserError Unit
  | [], _, _, _, _ => .ok ()
  | (param, evs) :: rest, m, req, opt, vp =>
    match dictLookup m param with
    | some v => do
      validate_datatype evs v (vp ++ "_p_" ++ param)
      validateDictElems rest m req opt vp
    | Option.none =>
      if opt = false ∨ param ∈ req then .error ⟨vp, "The entry is missing"⟩
      else validateDictElems rest m req opt vp

end

/-!
`validate_value` = `_validate_value` followed by `_custom_validate`
(`ValueSpec.validate_value`; the `validate_datatype` call in phase 1 is
commented out in the source).
-/

def PyNum.toRat : PyNum → Rat
  | .int n => (n : Rat)
  | .float q => q

/-- The `Integer._validate_value` / `Age._validate_value` min/max checks:
`value < self._minvalue` raises "too low", `value > self._maxvalue` raises
"too high".  The comparison is numeric; a non-numeric value (excluded by the
datatype contract) compares as neither. -/
def minMaxValidate (mv mx : Option PyNum) (value : PyVal) (vp : String) :
    Except MKUserError Unit :=
  if (match mv, value.asNum with
      | some m, some v => decide (v < m.toRat)
      | _, _ => false) then
    .error ⟨vp, "The value is too low."⟩
  else if (match mx, value.asNum with
      | some m, some v => decide (v > m.toRat)
      | _, _ => false) then
    .error ⟨vp, "The value is too high."⟩
  else .ok ()

/-- `TextAscii._validate_value` at the embedded defaults (`allow_empty=True`,
`forbidden_chars=""`, `regex=None`, `minlen=None`; the `six.text_type`
non-ASCII check is outside the embedding): only
`none_is_empty and value == ""` raises. -/
def textAsciiValidateValue (none_is_empty : Bool) (value : PyVal) (vp : String) :
    Except MKUserError Unit :=
  if none_is_empty && pyEq value (.str "") then
    .error ⟨vp, "An empty value must be represented with None here."⟩
  else .ok ()

/-- `DropdownChoice._value_is_invalid`: no choice value equals (`==`) the
value. -/
def dropdownValueInvalid (choices : List (PyVal × String)) (value : PyVal) : Bool :=
  !(choices.any (fun c => pyEq c.1 value))

/-- `DropdownChoice._validate_value` at the defaults (`no_preselect=False`,
`invalid_choice="complain"`): an invalid value raises, with the empty-text
message when it is `None`. -/
def dropdownValidateValue (choices : List (PyVal × String)) (value : PyVal)
    (vp : String) : Except MKUserError Unit :=
  if dropdownValueInvalid choices value then
    if value.isNone then
      .error ⟨vp, "There are no elements defined for this selection yet."⟩
    else
      .error ⟨vp, "The selected element is not longer available. Please select something else."⟩
  else .ok ()

mutual

/-- `ValueSpec.validate_value(value, varprefix)`: run the type-specific
`_validate_value`, then the instance-supplied `validate` callback
(`_custom_validate`).  `validate_datatype` is never called (the call is
commented out in the source). -/
def validate_value : VS → PyVal → String → Except MKUserError Unit
  | .mk d va b, value, vp => do
    validateValueBody b value vp
    customValidate (VS.mk d va b) value vp

def customValidate : VS → PyVal → String → Except MKUserError Unit
  | .mk _ va _, value, vp =>
    match va with
    | some f => f value vp
    | Option.none => .ok ()

/-- `_validate_value` of each embedded class (the base implementation is
`pass`). -/
def validateValueBody : VSBody → PyVal → String → Except MKUserError Unit
  | .fixedValue _ _, _, _ => .ok ()
  | .age mv mx, value, vp => minMaxValidate (mv.map PyNum.int) mx value vp
  | .integer mv mx, value, vp => minMaxValidate mv mx value vp
  | .float mv mx _, value, vp => minMaxValidate mv mx value vp
  | .percentage mv mx _, value, vp => minMaxValidate mv mx value vp
  | .checkbox _ _, _, _ => .ok ()
  | .textAscii nie _, value, vp => textAsciiValidateValue nie value vp
  | .listOfStrings inner _, value, vp =>
    -- `allow_empty=True` and `max_entries=None` defaults: only the
    -- per-entry `validate_value` loop remains.
    (match value with
     | .list xs =>
       (match inner with
        | some ivs => validateValueListEntries ivs xs vp 0
        | Option.none => validateValueListEntriesDefault xs vp 0)
     | _ => .ok ())
  | .dropdownChoice choices, value, vp => dropdownValidateValue choices value vp
  | .optional inner nv _, value, vp =>
    if pyEq value nv = false then validate_value inner value (vp ++ "_value")
    else .ok ()
  | .alternative es, value, vp =>
    -- `matching_alternative` (no custom `match` function modelled), then
    -- `vs.validate_value(value, varprefix + "_%d" % nr)` at its index; with
    -- no matching alternative nothing is validated.
    validateValueAlt es value vp 0
  | .tuple es, value, vp =>
    (match value with
     | .tuple xs => validateValueTupleElems es xs vp 0
     | _ => .ok ())
  | .dictionary elems ok rk _ _ mig, value, vp =>
    (match applyOpt mig value with
     | .dict m =>
       validateValueDictElems elems m (dictRequiredKeys elems ok rk)
         (dictOptionalFlag ok) vp
     | _ => .ok ())
  | .transform inner _ forth, value, vp =>
    validate_value inner (applyOpt forth value) vp

def validateValueListEntries : VS → List PyVal → String → Nat →
    Except MKUserError Unit
  | _, [], _, _ => .ok ()
  | ivs, x :: xs, vp, nr => do
    validate_value ivs x (vp ++ "_" ++ toString nr)
    validateValueListEntries ivs xs vp (nr + 1)

/-- The `ListOfStrings._validate_value` entry loop for the default inner
`TextAscii(size=size)` (whose `validate_value` is `_validate_value` plus a
`None` custom callback). -/
def validateValueListEntriesDefault : List PyVal → String → Nat →
    Except MKUserError Unit
  | [], _, _ => .ok ()
  | x :: xs, vp, nr => do
    textAsciiValidateValue false x (vp ++ "_" ++ toString nr)
    validateValueListEntriesDefault xs vp (nr + 1)

/-- `Alternative._validate_value`: find the first element whose
`validate_datatype(value, "")` does not raise and run its `validate_value`
with the per-index varprefix. -/
def validateValueAlt : List VS → PyVal → String → Nat → Except MKUserError Unit
  | [], _, _, _ => .ok ()
  | e :: es, value, vp, nr =>
    if exceptOk (validate_datatype e value "") then
      validate_value e value (vp ++ "_" ++ toString nr)
    else validateValueAlt es value vp (nr + 1)

def validateValueTupleElems : List VS → List PyVal → String → Nat →
    Except MKUserError Unit
  | [], _, _, _ => .ok ()
  | _ :: _, [], _, _ => .ok ()
  | e :: es, x :: xs, vp, no => do
    validate_value e x (vp ++ "_" ++ toString no)
    validateValueTupleElems es xs vp (no + 1)

/-- The `Dictionary._validate_value` element loop. -/
def validateValueDictElems : List (String × VS) → List (String × PyVal) →
    List String → Bool → String → Except MKUserError Unit
  | [], _, _, _, _ => .ok ()
  | (param, evs) :: rest, m, req, opt, vp =>
    match dictLookup m param with
    | some v => do
      validate_value evs v (vp ++ "_p_" ++ param)
      validateValueDictElems rest m req opt vp
    | Option.none =>
      if opt = false ∨ param ∈ req then .error ⟨vp, "The entry is missing"⟩
      else validateValueDictElems rest m req opt vp

end

/-!
`value_to_text`.  Where the Python code calls into the HTML layer
(`html.attrencode`, `html.render_table`, titles) the embedding approximates:
attribute encoding escapes the four HTML metacharacters, and the HTML-table
layouts of `ListOfStrings.value_to_text` / `Dictionary.value_to_text` are
flattened to comma-joined text.
-/

/-- Python truthiness (`if not value:` / `if value:`). -/
def PyVal.isTruthy : PyVal → Bool
  | .none => false
  | .bool b => b
  | .int n => n ≠ 0
  | .float q => q ≠ 0
  | .str s => s ≠ ""
  | .list xs => !xs.isEmpty
  | .tuple xs => !xs.isEmpty
  | .dict m => !m.isEmpty

/-- `html.attrencode`, approximated: escape the HTML metacharacters. -/
def htmlAttrencode (s : String) : String :=
  s.data.foldr
    (fun c acc =>
      (match c with
       | '&' => "&amp;"
       | '<' => "&lt;"
       | '>' => "&gt;"
       | '"' => "&quot;"
       | c => String.singleton c) ++ acc) ""

/-- Fixed-point decimal rendering `"%.Nf" % q`, with round-half-up in place
of the float formatting's round-half-even (no claim observes the
difference). -/
def formatFixed (prec : Nat) (q : Rat) : String :=
  let scaled : Int := round (q * ((10 : Nat) ^ prec : Nat))
  let sign := if scaled < 0 then "-" else ""
  let a := scaled.natAbs
  let p := (10 : Nat) ^ prec
  let frac := toString (a % p)
  let frac := String.mk (List.replicate (prec - frac.length) '0') ++ frac
  if prec = 0 then sign ++ toString (a / p)
  else sign ++ toString (a / p) ++ "." ++ frac

/-- `"%d" % value` on a number: floats are truncated toward zero. -/
def formatIntD : PyVal → String
  | .int n => toString n
  | .bool b => if b then "1" else "0"
  | .float q => toString (q.num / (q.den : Int))
  | _ => ""

/-- Python `str(value)`, approximated for display purposes only. -/
def pyStrOf : PyVal → String
  | .none => "None"
  | .bool b => if b then "True" else "False"
  | .int n => toString n
  | .float q => formatFixed 1 q
  | .str s => s
  | .list _ => "[...]"
  | .tuple _ => "(...)"
  | .dict _ => "{...}"

/-- `Age.value_to_text`: split the second count with `divmod` into days,
hours, minutes and seconds, keep the nonzero parts as `"%d %s"` strings in
that order, and join them with single spaces; with no parts return
"no time". -/
def ageText (n : Int) : String :=
  -- `divmod` on ints is floor division; Lean's `/`/`%` on `Int` agree with
  -- it for the positive divisors used here.
  let days := n / 86400
  let rest1 := n % 86400
  let hours := rest1 / 3600
  let rest2 := rest1 % 3600
  let minutes := rest2 / 60
  let seconds := rest2 % 60
  let parts :=
    (if days ≠ 0 then [toString days ++ " days"] else []) ++
    (if hours ≠ 0 then [toString hours ++ " hours"] else []) ++
    (if minutes ≠ 0 then [toString minutes ++ " minutes"] else []) ++
    (if seconds ≠ 0 then [toString seconds ++ " seconds"] else [])
  if parts.isEmpty then "no time" else String.intercalate " " parts

/-- `TextAscii.value_to_text` (`attrencode=True` default). -/
def textAsciiText (empty_text : String) (value : PyVal) : String :=
  if value.isTruthy = false then empty_text
  else htmlAttrencode (pyStrOf value)

/-- The `DropdownChoice.value_to_text` loop: the title of the first choice
whose value equals (`==`) the value. -/
def ddChoiceTitle : List (PyVal × String) → PyVal → Option String
  | [], _ => Option.none
  | (v, t) :: rest, value =>
    if pyEq value v then some t else ddChoiceTitle rest value

mutual

/-- `value_to_text(value)` of each embedded class. -/
def value_to_text : VS → PyVal → String
  | .mk _ _ b, value => valueToTextBody b value

def valueToTextBody : VSBody → PyVal → String
  | .fixedValue _ totext, value =>
    -- `totext` wins; a text value is returned as is, anything else through
    -- `str(...)`.
    (match totext with
     | some t => t
     | Option.none =>
       match value with
       | .str s => s
       | v => pyStrOf v)
  | .age _ _, value =>
    (match value with
     | .int n => ageText n
     | .bool b => ageText (if b then 1 else 0)
     | _ => "")
  | .integer _ _, value => formatIntD value
  | .float _ _ _, value =>
    -- `"%.2f" % value`, decimal separator left at the default ".".
    (match value.asNum with
     | some q => formatFixed 2 q
     | Option.none => "")
  | .percentage _ _ _, value =>
    (match value.asNum with
     | some q => formatFixed 1 q ++ "%"
     | Option.none => "")
  | .checkbox tl fl, value =>
    if value.isTruthy then tl.getD "on" else fl.getD "off"
  | .textAscii _ et, value => textAsciiText et value
  | .listOfStrings inner et, value =>
    if value.isTruthy = false then et
    else
      (match value with
       | .list xs =>
         (match inner with
          | some ivs => String.intercalate ", " (valueToTextList ivs xs)
          | Option.none => String.intercalate ", " (xs.map (textAsciiText "")))
       | _ => "")
  | .dropdownChoice choices, value =>
    (match ddChoiceTitle choices value with
     | some t => htmlAttrencode t
     | Option.none => htmlAttrencode "Element does not exist anymore")
  | .optional inner nv nl, value =>
    if pyEq value nv then nl.getD "(unset)" else value_to_text inner value
  | .alternative es, value =>
    (match altMatchText es value with
     | some t => t
     | Option.none => "invalid: " ++ htmlAttrencode (pyStrOf value))
  | .tuple es, value =>
    (match value with
     | .tuple xs => String.intercalate ", " (tupleTexts es xs)
     | _ => "")
  | .dictionary elems _ _ _ _ mig, value =>
    (match applyOpt mig value with
     | v =>
       if v.isTruthy = false then "(no parameters)"
       else
         match v with
         | .dict m => String.intercalate ", " (dictTexts elems m)
         | _ => "")
  | .transform inner _ forth, value =>
    value_to_text inner (applyOpt forth value)

def valueToTextList : VS → List PyVal → List String
  | _, [] => []
  | ivs, x :: xs => value_to_text ivs x :: valueToTextList ivs xs

/-- `Alternative.value_to_text` via `matching_alternative`
(`show_alternative_title=False` default). -/
def altMatchText : List VS → PyVal → Option String
  | [], _ => Option.none
  | e :: es, value =>
    if exceptOk (validate_datatype e value "") then some (value_to_text e value)
    else altMatchText es value

def tupleTexts : List VS → List PyVal → List String
  | [], _ => []
  | _ :: _, [] => []
  | e :: es, x :: xs => value_to_text e x :: tupleTexts es xs

/-- The `Dictionary.value_to_text` row loop (declared elements present in
the value, in declaration order; element titles and table markup
abstracted). -/
def dictTexts : List (String × VS) → List (String × PyVal) → List String
  | [], _ => []
  | (param, evs) :: rest, m =>
    (match dictLookup m param with
     | some v => (param ++ ": " ++ value_to_text evs v) :: dictTexts rest m
     | Option.none => dictTexts rest m)

end

/-!
The valuespec family of claim C1: every valuespec built by nesting
`FixedValue`, `Age`, `Integer`, `Float`, `Percentage`, `Checkbox`,
`TextAscii`, `ListOfStrings`, `DropdownChoice`, `Optional`, `Alternative`
(with at least one element), `Tuple` and `Dictionary` — i.e. everything in
the embedding except `Transform`.
-/

mutual

def inC1Grammar : VS → Bool
  | .mk _ _ b => inC1GrammarBody b

def inC1GrammarBody : VSBody → Bool
  | .fixedValue _ _ => true
  | .age _ _ => true
  | .integer _ _ => true
  | .float _ _ _ => true
  | .percentage _ _ _ => true
  | .checkbox _ _ => true
  | .textAscii _ _ => true
  | .listOfStrings inner _ =>
    (match inner with
     | some ivs => inC1Grammar ivs
     | Option.none => true)
  | .dropdownChoice _ => true
  | .optional inner _ _ => inC1Grammar inner
  | .alternative es => !es.isEmpty && inC1GrammarList es
  | .tuple es => inC1GrammarList es
  | .dictionary elems _ _ _ _ _ => inC1GrammarDict elems
  | .transform _ _ _ => false

def inC1GrammarList : List VS → Bool
  | [] => true
  | e :: es => inC1Grammar e && inC1GrammarList es

def inC1GrammarDict : List (String × VS) → Bool
  | [] => true
  | (_, evs) :: rest => inC1Grammar evs && inC1GrammarDict rest

end

/-- Whether an `Integer` minvalue keeps `canonical_value()` an int: a float
minvalue is returned unchanged by `Integer.canonical_value` when truthy
(nonzero), so it must be absent, an int, or zero. -/
def integerMinvalueOk (mv : Option PyNum) : Bool :=
  match mv with
  | some (.float q) => decide (q = 0)
  | _ => true

mutual

/-- The well-formedness conditions that claim C1 additionally needs:
no `Integer` node has a truthy (nonzero) float `minvalue`, and every
`Dictionary` node has pairwise distinct declared element names and no
`migrate` function. -/
def c1WellFormed : VS → Bool
  | .mk _ _ b => c1WellFormedBody b

def c1WellFormedBody : VSBody → Bool
  | .integer mv _ => integerMinvalueOk mv
  | .listOfStrings inner _ =>
    (match inner with
     | some ivs => c1WellFormed ivs
     | Option.none => true)
  | .optional inner _ _ => c1WellFormed inner
  | .alternative es => c1WellFormedList es
  | .tuple es => c1WellFormedList es
  | .dictionary elems _ _ _ _ mig =>
    mig.isNone && decide (elems.map Prod.fst).Nodup && c1WellFormedDict elems
  | .transform inner _ _ => c1WellFormed inner
  | _ => true

def c1WellFormedList : List VS → Bool
  | [] => true
  | e :: es => c1WellFormed e && c1WellFormedList es

def c1WellFormedDict : List (String × VS) → Bool
  | [] => true
  | (_, evs) :: rest => c1WellFormed evs && c1WellFormedDict rest

end

/-- `Tuple`/`Dictionary`/`Alternative`/`Transform` override `default_value`;
every other embedded class uses the base `ValueSpec.default_value`. -/
def usesBaseDefault : VSBody → Bool
  | .tuple _ => false
  | .dictionary _ _ _ _ _ _ => false
  | .alternative _ => false
  | .transform _ _ _ => false
  | _ => true

/-- `Integer(minvalue=2.5)`: a constructor call that is legal for the
annotation `minvalue: Optional[Union[float, int]]`. -/
def integerWithFloatMinvalue : VS :=
  VS.mk .unset Option.none (.integer (some (.float (5 / 2))) Option.none)

/-- A small concrete nesting in the C1 grammar:
`Dictionary(elements=[("levels", Tuple([Integer(minvalue=1), Checkbox()]))],
optional_keys=False)`. -/
def c1WitnessVS : VS :=
  VS.mk .unset Option.none (.dictionary
    [("levels", VS.mk .unset Option.none (.tuple
        [VS.mk .unset Option.none (.integer (some (.int 1)) Option.none),
         VS.mk .unset Option.none (.checkbox Option.none Option.none)]))]
    (.flag false) [] [] [] Option.none)

/-- `Tuple([Checkbox(default_value=True)])`, itself constructed without a
`default_value` argument. -/
def tupleIgnoringDefault : VS :=
  VS.mk .unset Option.none
    (.tuple [VS.mk (.value (.bool true)) Option.none (.checkbox Option.none Option.none)])

/-!
The check-parameter registration of claim C7.
-/

/-- Modelled from the spec: `register_check_parameters` is imported from
`cmk.gui.plugins.wato`, which is not under src/.  Per the spec a
check-parameter registration is "declarative metadata binding a named
check's configurable thresholds to a ValueSpec tree", so a registration is
modelled as a record of the call's arguments (the rulespec group by its
class name). -/
structure CheckParameterRegistration where
  group : String
  checkgroup : String
  title : String
  parameter_valuespec : VS
  item_valuespec : VS
  match_type : String

/-- The `Tuple` bound to the `"percent_full"` key in
`emcvnx_storage_pools.py`: two `Percentage` fields with
`default_value=70.0` / `90.0` (`Percentage.__init__` defaults
`minvalue=0.0`, `maxvalue=101.0`, `allow_int=False`; titles omitted by the
embedding). -/
def emcvnx_percent_full_tuple : VS :=
  VS.mk .unset Option.none (.tuple
    [VS.mk (.value (.float 70)) Option.none
       (.percentage (some (.float 0)) (some (.float 101)) false),
     VS.mk (.value (.float 90)) Option.none
       (.percentage (some (.float 0)) (some (.float 101)) false)])

/-- The `register_check_parameters` call in
`src/cmk/gui/plugins/wato/check_parameters/emcvnx_storage_pools.py`:
a `Dictionary` with the single declared key `"percent_full"`. -/
def emcvnx_storage_pools_registration : CheckParameterRegistration where
  group := "RulespecGroupCheckParametersStorage"
  checkgroup := "emcvnx_storage_pools"
  title := "EMC VNX storage pools"
  parameter_valuespec :=
    VS.mk .unset Option.none (.dictionary
      [("percent_full", emcvnx_percent_full_tuple)]
      (.flag true) [] [] [] Option.none)
  item_valuespec := VS.mk .unset Option.none (.textAscii false "")
  match_type := "dict"

/-!
The check-API level-classification helper of claim C8.
-/

/-- A `(warn, crit)` or `(warn, crit, warn_low, crit_low)` params tuple for
`check_levels`.  Numbers are modelled as rationals. -/
inductive Levels where
  | two (warn crit : Rat)
  | four (warn crit warn_low crit_low : Rat)

def Levels.warn : Levels → Rat
  | .two w _ => w
  | .four w _ _ _ => w

def Levels.crit : Levels → Rat
  | .two _ c => c
  | .four _ c _ _ => c

/-- The upper-level annotation appended to the info text, with `r`
rendering a threshold (the default repr or the `human_readable_func`). -/
def levelsTextAt (r : Rat → String) (warn crit : Rat) : String :=
  " (warn/crit at " ++ r warn ++ "/" ++ r crit ++ ")"

/-- The lower-level annotation appended to the info text. -/
def levelsTextBelow (r : Rat → String) (warn_low crit_low : Rat) : String :=
  " (warn/crit below " ++ r warn_low ++ "/" ++ r crit_low ++ ")"

/-- Modelled from the spec: `_check_boundaries` lives in
`cmk_base/check_api.py`, which is not under src/ — only the unit tests in
`src/tests/unit/cmk_base/test_check_api.py` exercise it.  The "generic
level-based status classification" is modelled to match those tests: the
upper levels dominate (crit, then warn, each annotated with the at-text),
then the lower levels of a four-tuple (crit_low, then warn_low, annotated
with the below-text), else OK with no annotation. -/
def check_boundaries (value : Rat) (levels : Levels) (r : Rat → String) :
    Nat × String :=
  match levels with
  | .two warn crit =>
    if value ≥ crit then (2, levelsTextAt r warn crit)
    else if value ≥ warn then (1, levelsTextAt r warn crit)
    else (0, "")
  | .four warn crit warn_low crit_low =>
    if value ≥ crit then (2, levelsTextAt r warn crit)
    else if value ≥ warn then (1, levelsTextAt r warn crit)
    else if value < crit_low then (2, levelsTextBelow r warn_low crit_low)
    else if value < warn_low then (1, levelsTextBelow r warn_low crit_low)
    else (0, "")

/-- Modelled from the spec: `check_levels(value, dsname, params, ...)` from
`cmk_base/check_api.py` (not under src/), restricted to tuple params as in
the unit tests: the status and info-text annotation come from the level
classification, and the performance data entry carries
`(dsname, value, warn, crit)` (just `(dsname, value)` without params). -/
def check_levels (value : Rat) (dsname : String) (params : Option Levels)
    (r : Rat → String) :
    Nat × String × List (String × Rat × Option (Rat × Rat)) :=
  match params with
  | Option.none => (0, "", [(dsname, value, Option.none)])
  | some levels =>
    let sc := check_boundaries value levels r
    (sc.1, sc.2, [(dsname, value, some (levels.warn, levels.crit))])

/-! Helper lemmas. -/

mutual

theorem pyEq_refl : (v : PyVal) → pyEq v v = true
  | .none => by simp [pyEq]
  | .bool b => by simp [pyEq, PyVal.asNum]
  | .int n => by simp [pyEq, PyVal.asNum]
  | .float q => by simp [pyEq, PyVal.asNum]
  | .str s => by simp [pyEq]
  | .list xs => by
    simpa [pyEq] using pyEqList_refl xs
  | .tuple xs => by
    simpa [pyEq] using pyEqList_refl xs
  | .dict m => by
    simpa [pyEq] using pyEqEntries_refl m

theorem pyEqList_refl : (l : List PyVal) → pyEqList l l = true
  | [] => by simp [pyEqList]
  | x :: xs => by
    simp [pyEqList]
    exact ⟨pyEq_refl x, pyEqList_refl xs⟩

theorem pyEqEntries_refl : (l : List (String × PyVal)) → pyEqEntries l l = true
  | [] => by simp [pyEqEntries]
  | (k, v) :: rest => by
    simp [pyEqEntries]
    exact ⟨pyEq_refl v, pyEqEntries_refl rest⟩

end

theorem exceptOk_bind_unit {ε β : Type} (a : Except ε Unit) (f : Unit → Except ε β) :
    exceptOk (a >>= f) = (exceptOk a && exceptOk (f ())) := by
  cases a with
  | ok u => cases u; simp [Bind.bind, Except.bind, exceptOk]
  | error e => simp [Bind.bind, Except.bind, exceptOk]

theorem dictLookup_not_mem (l : List (String × PyVal)) (k : String)
    (h : k ∉ l.map Prod.fst) : dictLookup l k = Option.none := by
  induction l with
  | nil => simp [dictLookup]
  | cons kv rest ih =>
    obtain ⟨k2, v⟩ := kv
    simp only [List.map_cons, List.mem_cons] at h
    push_neg at h
    simp [dictLookup, ih h.2, Ne.symm h.1]

theorem dictInsert_not_mem (l : List (String × PyVal)) (k : String) (v : PyVal)
    (h : k ∉ l.map Prod.fst) : dictInsert l k v = l ++ [(k, v)] := by
  induction l with
  | nil => simp [dictInsert]
  | cons kv rest ih =>
    obtain ⟨k2, w⟩ := kv
    simp only [List.map_cons, List.mem_cons] at h
    push_neg at h
    simp [dictInsert, ih h.2, Ne.symm h.1]

theorem foldl_dictInsert_nodup (l acc : List (String × PyVal))
    (h : ((acc ++ l).map Prod.fst).Nodup) :
    l.foldl (fun a kv => dictInsert a kv.1 kv.2) acc = acc ++ l := by
  induction l generalizing acc with
  | nil => simp
  | cons kv rest ih =>
    obtain ⟨k, v⟩ := kv
    have hk : k ∉ acc.map Prod.fst := by
      intro hmem
      have := h
      simp only [List.map_append, List.nodup_append, List.map_cons] at this
      exact (this.2.2 hmem) (by simp)
    have step : dictInsert acc k v = acc ++ [(k, v)] := dictInsert_not_mem acc k v hk
    simp only [List.foldl_cons, step]
    have h2 : (((acc ++ [(k, v)]) ++ rest).map Prod.fst).Nodup := by
      simpa using h
    simpa using ih (acc ++ [(k, v)]) h2

theorem dictOfList_nodup (l : List (String × PyVal))
    (h : (l.map Prod.fst).Nodup) : dictOfList l = l := by
  simpa [dictOfList] using foldl_dictInsert_nodup l [] (by simpa using h)

theorem checkExceedingKeys_ok_iff (ks allowed : List String) (vp : String) :
    exceptOk (checkExceedingKeys ks allowed vp) = true ↔ ∀ k ∈ ks, k ∈ allowed := by
  induction ks with
  | nil => simp [checkExceedingKeys, exceptOk]
  | cons k rest ih =>
    by_cases hk : k ∈ allowed
    · simp [checkExceedingKeys, hk, ih]
    · simp [checkExceedingKeys, hk, exceptOk]

theorem inC1GrammarList_mem {es : List VS} {e : VS}
    (h : inC1GrammarList es = true) (he : e ∈ es) : inC1Grammar e = true := by
  induction es with
  | nil => cases he
  | cons x rest ih =>
    rw [inC1GrammarList] at h
    simp only [Bool.and_eq_true] at h
    rcases List.mem_cons.mp he with he | he
    · subst he; exact h.1
    · exact ih h.2 he

theorem inC1GrammarDict_mem {elems : List (String × VS)} {p : String} {evs : VS}
    (h : inC1GrammarDict elems = true) (he : (p, evs) ∈ elems) :
    inC1Grammar evs = true := by
  induction elems with
  | nil => cases he
  | cons x rest ih =>
    obtain ⟨q, qvs⟩ := x
    rw [inC1GrammarDict] at h
    simp only [Bool.and_eq_true] at h
    rcases List.mem_cons.mp he with he | he
    · injection he with h1 h2
      subst h2; exact h.1
    · exact ih h.2 he

theorem c1WellFormedList_mem {es : List VS} {e : VS}
    (h : c1WellFormedList es = true) (he : e ∈ es) : c1WellFormed e = true := by
  induction es with
  | nil => cases he
  | cons x rest ih =>
    rw [c1WellFormedList] at h
    simp only [Bool.and_eq_true] at h
    rcases List.mem_cons.mp he with he | he
    · subst he; exact h.1
    · exact ih h.2 he

theorem c1WellFormedDict_mem {elems : List (String × VS)} {p : String} {evs : VS}
    (h : c1WellFormedDict elems = true) (he : (p, evs) ∈ elems) :
    c1WellFormed evs = true := by
  induction elems with
  | nil => cases he
  | cons x rest ih =>
    obtain ⟨q, qvs⟩ := x
    rw [c1WellFormedDict] at h
    simp only [Bool.and_eq_true] at h
    rcases List.mem_cons.mp he with he | he
    · injection he with h1 h2
      subst h2; exact h.1
    · exact ih h.2 he

theorem canonicalList_length (es : List VS) :
    (canonicalList es).length = es.length := by
  induction es with
  | nil => rw [canonicalList]; rfl
  | cons e rest ih => rw [canonicalList]; simpa using ih

theorem canonicalDictEntries_names_sublist (elems : List (String × VS))
    (req : List String) (opt : Bool) :
    ((canonicalDictEntries elems req opt).map Prod.fst).Sublist (elems.map Prod.fst) := by
  induction elems with
  | nil => rw [canonicalDictEntries]; simp
  | cons x rest ih =>
    obtain ⟨q, qvs⟩ := x
    rw [canonicalDictEntries]
    by_cases hc : q ∈ req ∨ opt = false
    · simpa [hc] using ih.cons₂ q
    · simpa [hc] using ih.cons q

theorem canonicalDictEntries_lookup (elems : List (String × VS))
    (req : List String) (opt : Bool) (hnd : (elems.map Prod.fst).Nodup)
    (p : String) (evs : VS) (hm : (p, evs) ∈ elems) :
    dictLookup (canonicalDictEntries elems req opt) p =
      (if p ∈ req ∨ opt = false then some (canonical_value evs) else Option.none) := by
  induction elems with
  | nil => cases hm
  | cons x rest ih =>
    obtain ⟨q, qvs⟩ := x
    simp only [List.map_cons, List.nodup_cons] at hnd
    rcases List.mem_cons.mp hm with hm | hm
    · injection hm with h1 h2
      subst h1; subst h2
      rw [canonicalDictEntries]
      by_cases hc : p ∈ req ∨ opt = false
      · simp [hc, dictLookup]
      · have hnotin : p ∉ (canonicalDictEntries rest req opt).map Prod.fst := by
          intro hmem
          exact hnd.1 ((canonicalDictEntries_names_sublist rest req opt).subset hmem)
        simp [hc, dictLookup_not_mem _ _ hnotin]
    · have hp_in : p ∈ rest.map Prod.fst := List.mem_map_of_mem Prod.fst hm
      have hpq : p ≠ q := by
        intro h
        rw [h] at hp_in
        exact hnd.1 hp_in
      rw [canonicalDictEntries]
      by_cases hc : q ∈ req ∨ opt = false
      · rw [if_pos hc, dictLookup, if_neg (Ne.symm hpq)]
        exact ih hnd.2 hm
      · rw [if_neg hc]
        exact ih hnd.2 hm

theorem sizeOf_body_lt (d : DefaultArg) (va : ValidateArg) (b : VSBody) :
    sizeOf b < sizeOf (VS.mk d va b) := by
  simp only [VS.mk.sizeOf_spec]
  omega

theorem sizeOf_list_elem_lt {e : VS} {es : List VS} (h : e ∈ es) :
    sizeOf e < sizeOf es :=
  List.sizeOf_lt_of_mem h

theorem sizeOf_dict_elem_lt {p : String} {evs : VS} {elems : List (String × VS)}
    (h : (p, evs) ∈ elems) : sizeOf evs < sizeOf elems := by
  have h1 : sizeOf (p, evs) < sizeOf elems := List.sizeOf_lt_of_mem h
  have h2 : sizeOf (p, evs) = 1 + sizeOf p + sizeOf evs := rfl
  omega

theorem canonicalList_get (es : List VS) :
    ∀ (i : Nat) (h : i < (canonicalList es).length) (h2 : i < es.length),
      (canonicalList es).get ⟨i, h⟩ = canonical_value (es.get ⟨i, h2⟩) := by
  induction es with
  | nil => intro i h h2; simp at h2
  | cons e rest ih =>
    intro i h h2
    match i with
    | 0 => simp [canonicalList]
    | Nat.succ j =>
      have hh : j < (canonicalList rest).length := by
        have := h
        simp only [canonicalList, List.length_cons] at this
        omega
      have hh2 : j < rest.length := by simpa using h2
      simpa only [canonicalList, List.get_cons_succ] using ih j hh hh2

theorem validateTupleElems_ok_iff (es : List VS) (xs : List PyVal) (vp : String) :
    ∀ no, exceptOk (validateTupleElems es xs vp no) = true ↔
      ∀ (i : Nat) (h1 : i < es.length) (h2 : i < xs.length),
        exceptOk (validate_datatype (es.get ⟨i, h1⟩) (xs.get ⟨i, h2⟩)
          (vp ++ "_" ++ toString (no + i))) = true := by
  induction es generalizing xs with
  | nil =>
    intro no
    rw [validateTupleElems]
    simp [exceptOk]
  | cons e rest ih =>
    intro no
    cases xs with
    | nil =>
      rw [validateTupleElems]
      simp [exceptOk]
    | cons x xtl =>
      rw [validateTupleElems, exceptOk_bind_unit]
      constructor
      · intro h i h1 h2
        simp only [Bool.and_eq_true] at h
        match i with
        | 0 => simpa using h.1
        | Nat.succ j =>
          have hj := (ih xtl (no + 1)).mp h.2 j (by simpa using h1) (by simpa using h2)
          have harith : no + 1 + j = no + (j + 1) := by omega
          rw [harith] at hj
          simpa using hj
      · intro h
        simp only [Bool.and_eq_true]
        constructor
        · simpa using h 0 (by simp) (by simp)
        · refine (ih xtl (no + 1)).mpr ?_
          intro j hj1 hj2
          have hj := h (j + 1) (by simpa using hj1) (by simpa using hj2)
          have harith : no + (j + 1) = no + 1 + j := by omega
          rw [harith] at hj
          simpa using hj

theorem validateDictElems_ok_iff (elems : List (String × VS))
    (m : List (String × PyVal)) (req : List String) (opt : Bool) (vp : String) :
    exceptOk (validateDictElems elems m req opt vp) = true ↔
      ∀ p evs, (p, evs) ∈ elems →
        (∀ w, dictLookup m p = some w →
          exceptOk (validate_datatype evs w (vp ++ "_p_" ++ p)) = true) ∧
        (dictLookup m p = Option.none → ¬(opt = false ∨ p ∈ req)) := by
  induction elems with
  | nil => simp [validateDictElems, exceptOk]
  | cons x rest ih =>
    obtain ⟨q, qvs⟩ := x
    rw [validateDictElems]
    cases hl : dictLookup m q with
    | some w =>
      rw [exceptOk_bind_unit]
      simp only [Bool.and_eq_true, ih, List.mem_cons]
      constructor
      · rintro ⟨hq, hrest⟩ p evs (hpe | hpe)
        · injection hpe with e1 e2
          subst e1; subst e2
          refine ⟨?_, ?_⟩
          · intro w2 hw2
            rw [hl] at hw2
            injection hw2 with e3
            subst e3
            exact hq
          · intro hnone
            rw [hl] at hnone
            cases hnone
        · exact hrest p evs hpe
      · intro h
        refine ⟨?_, ?_⟩
        · exact (h q qvs (Or.inl rfl)).1 w hl
        · intro p evs hpe
          exact h p evs (Or.inr hpe)
    | none =>
      by_cases hreq : opt = false ∨ q ∈ req
      · rw [if_pos hreq]
        simp only [exceptOk, Bool.false_eq_true, false_iff]
        intro h
        exact (h q qvs (List.mem_cons_self _ _)).2 hl hreq
      · rw [if_neg hreq]
        rw [ih]
        constructor
        · intro h p evs hpe
          rcases List.mem_cons.mp hpe with hpe | hpe
          · injection hpe with e1 e2
            subst e1; subst e2
            refine ⟨?_, fun _ => hreq⟩
            intro w hw
            rw [hl] at hw
            cases hw
          · exact h p evs hpe
        · intro h p evs hpe
          exact h p evs (List.mem_cons_of_mem _ hpe)

theorem pyFloat_integerCanonical (mv : Option PyNum) :
    ∃ q : Rat, pyFloat (integerCanonical mv) = .float q := by
  cases mv with
  | none => exact ⟨_, rfl⟩
  | some num =>
    cases num with
    | int k =>
      by_cases hk : k = 0
      · exact ⟨0, by simp [integerCanonical, PyNum.isTruthy, hk, pyFloat]⟩
      · exact ⟨(k : Rat), by simp [integerCanonical, PyNum.isTruthy, hk, PyNum.toPyVal, pyFloat]⟩
    | float q =>
      by_cases hq : q = 0
      · exact ⟨0, by simp [integerCanonical, PyNum.isTruthy, hq, pyFloat]⟩
      · exact ⟨q, by simp [integerCanonical, PyNum.isTruthy, hq, PyNum.toPyVal, pyFloat]⟩

/-- Strong-induction core of claim C1: within the claimed grammar, with the
well-formedness conditions, the canonical value passes the datatype
validation. -/
theorem canonical_ok_core :
    ∀ (n : Nat) (vs : VS), sizeOf vs < n → inC1Grammar vs = true →
      c1WellFormed vs = true →
      ∀ p, exceptOk (validate_datatype vs (canonical_value vs) p) = true := by
  intro n
  induction n with
  | zero => intro vs h; omega
  | succ n ih =>
    intro vs hsz hg hw p
    obtain ⟨d, va, b⟩ := vs
    have hszb : sizeOf b < n := by
      have := sizeOf_body_lt d va b
      omega
    rw [inC1Grammar] at hg
    rw [c1WellFormed] at hw
    rw [canonical_value, validate_datatype]
    cases b with
    | fixedValue v t =>
      simp [canonicalBody, validateBody, fixedValueValidate, pyEq_refl, exceptOk]
    | age mv mx =>
      cases mv with
      | none => simp [canonicalBody, validateBody, ageValidate, PyVal.isIntInstance, exceptOk]
      | some m =>
        by_cases hm : m = 0 <;>
          simp [canonicalBody, validateBody, ageValidate, PyVal.isIntInstance, exceptOk, hm]
    | integer mv mx =>
      rw [c1WellFormedBody] at hw
      cases mv with
      | none =>
        simp [canonicalBody, integerCanonical, validateBody, integerValidate,
          PyVal.isIntInstance, exceptOk]
      | some num =>
        cases num with
        | int k =>
          by_cases hk : k = 0 <;>
            simp [canonicalBody, integerCanonical, PyNum.isTruthy, PyNum.toPyVal,
              validateBody, integerValidate, PyVal.isIntInstance, exceptOk, hk]
        | float q =>
          have hq : q = 0 := by
            simpa [integerMinvalueOk] using hw
          simp [canonicalBody, integerCanonical, PyNum.isTruthy, hq,
            validateBody, integerValidate, PyVal.isIntInstance, exceptOk]
    | float mv mx ai =>
      obtain ⟨q, hq⟩ := pyFloat_integerCanonical mv
      simp [canonicalBody, hq, validateBody, floatValidate, PyVal.isFloatInstance, exceptOk]
    | percentage mv mx ai =>
      obtain ⟨q, hq⟩ := pyFloat_integerCanonical mv
      cases ai <;>
        simp [canonicalBody, hq, validateBody, percentageValidate, floatValidate,
          PyVal.isFloatInstance, exceptOk]
    | checkbox tl fl =>
      simp [canonicalBody, validateBody, checkboxValidate, PyVal.isBoolInstance, exceptOk]
    | textAscii nie et =>
      simp [canonicalBody, validateBody, textAsciiValidate, PyVal.isStrInstance, exceptOk]
    | listOfStrings inner et =>
      cases inner with
      | none =>
        simp [canonicalBody, validateBody, validateListEntriesDefault, exceptOk]
      | some ivs =>
        simp [canonicalBody, validateBody, validateListEntries, exceptOk]
    | dropdownChoice choices =>
      simp [canonicalBody, validateBody, exceptOk]
    | optional inner nv nl =>
      simp [canonicalBody, validateBody, pyEq_refl, exceptOk]
    | alternative es =>
      rw [inC1GrammarBody] at hg
      simp only [Bool.and_eq_true, Bool.not_eq_true'] at hg
      obtain ⟨hne, hglist⟩ := hg
      rw [c1WellFormedBody] at hw
      cases es with
      | nil => simp at hne
      | cons e tl =>
        have he_mem : e ∈ e :: tl := List.mem_cons_self _ _
        have hsze : sizeOf e < n := by
          have h1 := sizeOf_list_elem_lt he_mem
          have h2 : sizeOf (e :: tl) < sizeOf (VSBody.alternative (e :: tl)) := by
            simp only [VSBody.alternative.sizeOf_spec]
            omega
          omega
        have hok := ih e hsze (inC1GrammarList_mem hglist he_mem)
          (c1WellFormedList_mem hw he_mem) ""
        have hcond : altAnyAccepts (e :: tl) (canonical_value e) = true := by
          rw [altAnyAccepts, hok]
          simp
        simp [canonicalBody, validateBody, hcond, exceptOk]
    | tuple es =>
      rw [inC1GrammarBody] at hg
      rw [c1WellFormedBody] at hw
      simp only [canonicalBody, validateBody, canonicalList_length, ne_eq,
        not_true_eq_false, if_false]
      refine (validateTupleElems_ok_iff es (canonicalList es) p 0).mpr ?_
      intro i h1 h2
      have hmem : es.get ⟨i, h1⟩ ∈ es := List.get_mem es i h1
      have hsze : sizeOf (es.get ⟨i, h1⟩) < n := by
        have hlt := sizeOf_list_elem_lt hmem
        have h2 : sizeOf es < sizeOf (VSBody.tuple es) := by
          simp only [VSBody.tuple.sizeOf_spec]
          omega
        omega
      rw [canonicalList_get es i h2 h1]
      exact ih _ hsze (inC1GrammarList_mem hg hmem) (c1WellFormedList_mem hw hmem) _
    | dictionary elems ok rk ik dk mig =>
      rw [inC1GrammarBody] at hg
      rw [c1WellFormedBody] at hw
      simp only [Bool.and_eq_true, Option.isNone_iff_eq_none, decide_eq_true_eq] at hw
      obtain ⟨⟨hmig, hnd⟩, hwdict⟩ := hw
      subst hmig
      have hnd_entries :
          ((canonicalDictEntries elems (dictRequiredKeys elems ok rk)
            (dictOptionalFlag ok)).map Prod.fst).Nodup :=
        (canonicalDictEntries_names_sublist elems _ _).nodup hnd
      rw [canonicalBody, validateBody]
      rw [dictOfList_nodup _ hnd_entries]
      simp only [applyOpt]
      rw [exceptOk_bind_unit]
      simp only [Bool.and_eq_true]
      constructor
      · refine (validateDictElems_ok_iff elems _ _ _ p).mpr ?_
        intro pr evs hpe
        have hsze : sizeOf evs < n := by
          have h1 := sizeOf_dict_elem_lt hpe
          have h2 : sizeOf elems < sizeOf (VSBody.dictionary elems ok rk ik dk Option.none) := by
            simp only [VSBody.dictionary.sizeOf_spec]
            omega
          omega
        have hlook := canonicalDictEntries_lookup elems (dictRequiredKeys elems ok rk)
          (dictOptionalFlag ok) hnd pr evs hpe
        by_cases hc : pr ∈ dictRequiredKeys elems ok rk ∨ dictOptionalFlag ok = false
        · rw [if_pos hc] at hlook
          refine ⟨?_, ?_⟩
          · intro w hw2
            rw [hlook] at hw2
            injection hw2 with e3
            subst e3
            exact ih evs hsze (inC1GrammarDict_mem hg hpe) (c1WellFormedDict_mem hwdict hpe) _
          · intro hnone
            rw [hlook] at hnone
            cases hnone
        · rw [if_neg hc] at hlook
          refine ⟨?_, ?_⟩
          · intro w hw2
            rw [hlook] at hw2
            cases hw2
          · intro _ habs
            exact hc (habs.elim Or.inr Or.inl)
      · refine (checkExceedingKeys_ok_iff _ _ p).mpr ?_
        intro k hk
        have hsub := (canonicalDictEntries_names_sublist elems
          (dictRequiredKeys elems ok rk) (dictOptionalFlag ok)).subset hk
        exact List.mem_append_left _ hsub
    | transform inner back forth =>
      rw [inC1GrammarBody] at hg
      cases hg

theorem floatValidate_false_exceptOk (x : PyVal) (vp : String) :
    exceptOk (floatValidate false x vp) = x.isFloatInstance := by
  cases hf : x.isFloatInstance <;> simp [floatValidate, hf, exceptOk]

theorem isFloatInstance_iff (x : PyVal) :
    x.isFloatInstance = true ↔ ∃ q : Rat, x = .float q := by
  cases x <;> simp [PyVal.isFloatInstance]

theorem defaultList_map (es : List VS) : defaultList es = es.map default_value := by
  induction es with
  | nil => rw [defaultList]; rfl
  | cons e rest ih => rw [defaultList]; simpa using ih

theorem defaultDictEntries_filter (elems : List (String × VS)) (req : List String)
    (opt : Bool) (dk : List String) :
    defaultDictEntries elems req opt dk =
      (elems.filter (fun e => decide (e.1 ∈ req ∨ opt = false ∨ e.1 ∈ dk))).map
        (fun e => (e.1, default_value e.2)) := by
  induction elems with
  | nil => rw [defaultDictEntries]; rfl
  | cons x rest ih =>
    obtain ⟨name, vs⟩ := x
    rw [defaultDictEntries]
    by_cases hc : name ∈ req ∨ opt = false ∨ name ∈ dk
    · simp only [hc, if_true, List.filter_cons, decide_eq_true_eq]
      simp [ih]
    · simp only [hc, if_false, List.filter_cons, decide_eq_true_eq]
      exact ih

/-!
Claim theorems.
-/

/-- C1 (amended): for every valuespec built by nesting `FixedValue`, `Age`,
`Integer`, `Float`, `Percentage`, `Checkbox`, `TextAscii`, `ListOfStrings`,
`DropdownChoice`, `Optional`, `Alternative` (with at least one element),
`Tuple` and `Dictionary` — in which, additionally, no `Integer` has a
nonzero float `minvalue`, and every `Dictionary` has pairwise distinct
declared element names and no `migrate` function — the value returned by
`canonical_value()` passes that same valuespec's
`validate_datatype(value, varprefix)` without raising `MKUserError`, for
every varprefix. -/
theorem C1_canonical_value_validates (vs : VS) (hg : inC1Grammar vs = true)
    (hw : c1WellFormed vs = true) (p : String) :
    exceptOk (validate_datatype vs (canonical_value vs) p) = true :=
  canonical_ok_core (sizeOf vs + 1) vs (Nat.lt_succ_self _) hg hw p

/-- C1 counterexample: `Integer(minvalue=2.5)` — legal for the constructor
annotation `minvalue: Optional[Union[float, int]]` — is built from the
claimed classes, but its `canonical_value()` is the float 2.5, which its own
`validate_datatype` rejects (`isinstance(value, numbers.Integral)` fails),
refuting the claim as stated. -/
theorem C1_counterexample :
    inC1Grammar integerWithFloatMinvalue = true ∧
    exceptOk (validate_datatype integerWithFloatMinvalue
      (canonical_value integerWithFloatMinvalue) "p") = false := by
  constructor
  · simp [integerWithFloatMinvalue, inC1Grammar, inC1GrammarBody]
  · have h52 : ((5 : Rat) / 2) ≠ 0 := by norm_num
    simp [integerWithFloatMinvalue, canonical_value, canonicalBody, integerCanonical,
      PyNum.isTruthy, PyNum.toPyVal, h52, validate_datatype, validateBody,
      integerValidate, PyVal.isIntInstance, exceptOk]

/-- C1 witness: the amended theorem applied to the concrete nesting
`Dictionary([("levels", Tuple([Integer(minvalue=1), Checkbox()]))],
optional_keys=False)` at varprefix `"vs"`. -/
theorem C1_witness :
    inC1Grammar c1WitnessVS = true ∧ c1WellFormed c1WitnessVS = true ∧
    exceptOk (validate_datatype c1WitnessVS (canonical_value c1WitnessVS) "vs") = true := by
  have hg : inC1Grammar c1WitnessVS = true := by
    simp [c1WitnessVS, inC1Grammar, inC1GrammarBody, inC1GrammarDict, inC1GrammarList]
  have hw : c1WellFormed c1WitnessVS = true := by
    simp [c1WitnessVS, c1WellFormed, c1WellFormedBody, c1WellFormedDict,
      c1WellFormedList, integerMinvalueOk]
  exact ⟨hg, hw, C1_canonical_value_validates c1WitnessVS hg hw "vs"⟩

/-- C2: `ValueSpec.validate_value` runs only the type-specific
`_validate_value` and the instance-supplied `validate` callback — its
`validate_datatype` phase is commented out in the source (see the
definition of `validate_value`) — hence there exist a valuespec and a value
(`Checkbox()` and the int 5) for which `validate_datatype` raises
`MKUserError` while `validate_value` returns normally. -/
theorem C2_validate_value_skips_datatype :
    ∃ (vs : VS) (v : PyVal),
      exceptOk (validate_datatype vs v "p") = false ∧
      validate_value vs v "p" = .ok () := by
  refine ⟨VS.mk .unset Option.none (.checkbox Option.none Option.none), .int 5, ?_, ?_⟩
  · simp [validate_datatype, validateBody, checkboxValidate, PyVal.isBoolInstance, exceptOk]
  · simp [validate_value, validateValueBody, customValidate, Bind.bind, Except.bind]

/-- C3: `Tuple.validate_datatype(value, varprefix)` succeeds exactly when
the value is a Python tuple of the declared length whose every component
passes the corresponding element valuespec's datatype check (at varprefix
`varprefix + "_i"`); otherwise — wrong type, wrong length, or a failing
component — it raises `MKUserError`. -/
theorem C3_tuple_validate_datatype (es : List VS) (d : DefaultArg)
    (va : ValidateArg) (value : PyVal) (p : String) :
    exceptOk (validate_datatype (VS.mk d va (.tuple es)) value p) = true ↔
      ∃ xs, value = .tuple xs ∧ xs.length = es.length ∧
        ∀ (i : Nat) (h1 : i < es.length) (h2 : i < xs.length),
          exceptOk (validate_datatype (es.get ⟨i, h1⟩) (xs.get ⟨i, h2⟩)
            (p ++ "_" ++ toString i)) = true := by
  rw [validate_datatype]
  cases value with
  | tuple xs =>
    simp only [validateBody]
    by_cases hlen : xs.length = es.length
    · rw [if_neg (by omega)]
      rw [validateTupleElems_ok_iff]
      constructor
      · intro h
        refine ⟨xs, rfl, hlen, ?_⟩
        intro i h1 h2
        simpa using h i h1 h2
      · rintro ⟨xs2, he, hlen2, h⟩
        injection he with he
        subst he
        intro i h1 h2
        simpa using h i h1 h2
    · rw [if_pos (by omega)]
      simp only [exceptOk, Bool.false_eq_true, false_iff]
      rintro ⟨xs2, he, hlen2, h⟩
      injection he with he
      subst he
      exact hlen hlen2
  | none => simp [validateBody, exceptOk]
  | bool b => simp [validateBody, exceptOk]
  | int n => simp [validateBody, exceptOk]
  | float q => simp [validateBody, exceptOk]
  | str s => simp [validateBody, exceptOk]
  | list xs => simp [validateBody, exceptOk]
  | dict m => simp [validateBody, exceptOk]

/-- C4: `Dictionary.validate_datatype(value, varprefix)` succeeds exactly
when the migrated value is a dict, every declared key that is present
passes its element valuespec's datatype check, every declared key that is
absent is not required (`_optional_keys` false or in `_required_keys`, as
computed by `__init__` from `optional_keys`/`required_keys`), and every key
of the value is a declared element name or in `ignored_keys`; in every
other case it raises `MKUserError`. -/
theorem C4_dictionary_validate_datatype (elems : List (String × VS))
    (ok : OptionalKeysArg) (rk ik dk : List String)
    (mig : Option (PyVal → PyVal)) (d : DefaultArg) (va : ValidateArg)
    (value : PyVal) (p : String) :
    exceptOk (validate_datatype (VS.mk d va (.dictionary elems ok rk ik dk mig))
        value p) = true ↔
      ∃ m, applyOpt mig value = .dict m ∧
        (∀ pr evs, (pr, evs) ∈ elems →
          (∀ w, dictLookup m pr = some w →
            exceptOk (validate_datatype evs w (p ++ "_p_" ++ pr)) = true) ∧
          (dictLookup m pr = Option.none →
            ¬(dictOptionalFlag ok = false ∨ pr ∈ dictRequiredKeys elems ok rk))) ∧
        (∀ k ∈ m.map Prod.fst, k ∈ elems.map Prod.fst ++ ik) := by
  rw [validate_datatype]
  simp only [validateBody]
  cases hmv : applyOpt mig value with
  | dict m =>
    rw [exceptOk_bind_unit]
    simp only [Bool.and_eq_true, validateDictElems_ok_iff, checkExceedingKeys_ok_iff]
    constructor
    · rintro ⟨h1, h2⟩
      exact ⟨m, rfl, h1, h2⟩
    · rintro ⟨m2, hm2, h1, h2⟩
      injection hm2 with e
      subst e
      exact ⟨h1, h2⟩
  | none => simp [exceptOk]
  | bool b => simp [exceptOk]
  | int n => simp [exceptOk]
  | float q => simp [exceptOk]
  | str s => simp [exceptOk]
  | list xs => simp [exceptOk]
  | tuple xs => simp [exceptOk]

/-- C5: a `Transform` around an inner valuespec `vs` with `forth`/`back`
defaulting to the identity when omitted satisfies: `canonical_value()` is
`back(vs.canonical_value())`, `default_value()` is
`back(vs.default_value())` (whatever default was passed to the `Transform`
itself), `value_to_text(v)` is `vs.value_to_text(forth(v))` for every `v`,
and `validate_datatype(v, p)` returns the very result of
`vs.validate_datatype(forth(v), p)` — in particular it raises exactly when
the inner validation does. -/
theorem C5_transform_delegates (inner : VS) (back forth : Option (PyVal → PyVal))
    (d : DefaultArg) (va : ValidateArg) :
    canonical_value (VS.mk d va (.transform inner back forth)) =
      applyOpt back (canonical_value inner) ∧
    default_value (VS.mk d va (.transform inner back forth)) =
      applyOpt back (default_value inner) ∧
    (∀ v, value_to_text (VS.mk d va (.transform inner back forth)) v =
      value_to_text inner (applyOpt forth v)) ∧
    (∀ v p, validate_datatype (VS.mk d va (.transform inner back forth)) v p =
      validate_datatype inner (applyOpt forth v) p) := by
  refine ⟨?_, ?_, ?_, ?_⟩
  · simp [canonical_value, canonicalBody]
  · simp [default_value]
  · intro v
    simp [value_to_text, valueToTextBody]
  · intro v p
    simp [validate_datatype, validateBody]

/-- C6: for every nonnegative integer n with its unique decomposition
n = 86400*d + 3600*h + 60*m + s (h < 24, m < 60, s < 60, all parts
nonnegative), `Age.value_to_text(n)` lists only the nonzero parts, in the
fixed order days, hours, minutes, seconds, each rendered "<count> <unit>"
and joined by single spaces; for n = 0 it returns "no time". -/
theorem C6_age_value_to_text (mv : Option Int) (mx : Option PyNum)
    (d_ : DefaultArg) (va : ValidateArg)
    (n d h m s : Int) (hn : n = 86400 * d + 3600 * h + 60 * m + s)
    (hd : 0 ≤ d) (hh0 : 0 ≤ h) (hh : h < 24) (hm0 : 0 ≤ m) (hm : m < 60)
    (hs0 : 0 ≤ s) (hs : s < 60) :
    (n = 0 → value_to_text (VS.mk d_ va (.age mv mx)) (.int n) = "no time") ∧
    (n ≠ 0 → value_to_text (VS.mk d_ va (.age mv mx)) (.int n) =
      String.intercalate " "
        ((if d ≠ 0 then [toString d ++ " days"] else []) ++
         (if h ≠ 0 then [toString h ++ " hours"] else []) ++
         (if m ≠ 0 then [toString m ++ " minutes"] else []) ++
         (if s ≠ 0 then [toString s ++ " seconds"] else []))) := by
  have e1 : n / 86400 = d := by omega
  have e2 : (n % 86400) / 3600 = h := by omega
  have e3 : ((n % 86400) % 3600) / 60 = m := by omega
  have e4 : ((n % 86400) % 3600) % 60 = s := by omega
  have htext : value_to_text (VS.mk d_ va (.age mv mx)) (.int n) = ageText n := by
    simp [value_to_text, valueToTextBody]
  constructor
  · intro h0
    have hz : d = 0 ∧ h = 0 ∧ m = 0 ∧ s = 0 := by omega
    obtain ⟨z1, z2, z3, z4⟩ := hz
    rw [htext]
    simp [ageText, e1, e2, e3, e4, z1, z2, z3, z4]
  · intro hnz
    rw [htext]
    simp only [ageText, e1, e2, e3, e4]
    by_cases z1 : d = 0 <;> by_cases z2 : h = 0 <;> by_cases z3 : m = 0 <;>
      by_cases z4 : s = 0 <;> simp [z1, z2, z3, z4] <;> omega

/-- C6 witness: the theorem applied at n = 90061 = 1 day + 1 hour +
1 minute + 1 second. -/
theorem C6_age_value_to_text_witness :
    value_to_text (VS.mk .unset Option.none (.age Option.none Option.none))
      (.int 90061) = "1 days 1 hours 1 minutes 1 seconds" := by
  have h := (C6_age_value_to_text Option.none Option.none .unset Option.none
    90061 1 1 1 1 (by norm_num) (by norm_num) (by norm_num) (by norm_num)
    (by norm_num) (by norm_num) (by norm_num) (by norm_num)).2 (by norm_num)
  rw [h]
  rfl

theorem exceptOk_pure_unit {ε : Type} : exceptOk (Except.ok (ε := ε) ()) = true := rfl

theorem emcvnx_tuple_validate_iff (w : PyVal) (vp : String) :
    exceptOk (validate_datatype emcvnx_percent_full_tuple w vp) = true ↔
      ∃ a b : Rat, w = .tuple [.float a, .float b] := by
  rw [emcvnx_percent_full_tuple, validate_datatype]
  cases w with
  | tuple xs =>
    simp only [validateBody]
    match xs with
    | [] => simp [exceptOk]
    | [x] => simp [exceptOk]
    | x1 :: x2 :: x3 :: tl =>
      rw [if_pos (by simp)]
      simp [exceptOk]
    | [x1, x2] =>
      rw [if_neg (by simp)]
      rw [validateTupleElems, exceptOk_bind_unit, validateTupleElems,
        exceptOk_bind_unit, validateTupleElems]
      simp only [validate_datatype, validateBody, percentageValidate,
        Bool.false_eq_true, if_false, floatValidate_false_exceptOk,
        exceptOk_pure_unit, Bool.and_true, Bool.and_eq_true, isFloatInstance_iff]
      constructor
      · rintro ⟨⟨a, ha⟩, ⟨b, hb⟩⟩
        exact ⟨a, b, by rw [ha, hb]⟩
      · rintro ⟨a, b, hab⟩
        injection hab with hab
        injection hab with h1 hab
        injection hab with h2 hab
        subst h1; subst h2
        exact ⟨⟨a, rfl⟩, ⟨b, rfl⟩⟩
  | none => simp [validateBody, exceptOk]
  | bool b => simp [validateBody, exceptOk]
  | int n => simp [validateBody, exceptOk]
  | float q => simp [validateBody, exceptOk]
  | str s => simp [validateBody, exceptOk]
  | list xs => simp [validateBody, exceptOk]
  | dict m => simp [validateBody, exceptOk]

/-- C7: the EMC VNX storage pools registration binds check group
`"emcvnx_storage_pools"` (with `match_type="dict"`) to a `Dictionary` whose
single, optional key `"percent_full"` holds a `Tuple` of two `Percentage`
fields whose default values are 70.0 and 90.0; that valuespec's
`validate_datatype` accepts a value iff it is a dict with no key other than
`"percent_full"` whose `"percent_full"` entry, when present, is a 2-tuple
of floats; and its `default_value()` is the empty dict. -/
theorem C7_emcvnx_storage_pools :
    emcvnx_storage_pools_registration.checkgroup = "emcvnx_storage_pools" ∧
    emcvnx_storage_pools_registration.match_type = "dict" ∧
    emcvnx_storage_pools_registration.parameter_valuespec =
      VS.mk .unset Option.none (.dictionary
        [("percent_full", emcvnx_percent_full_tuple)]
        (.flag true) [] [] [] Option.none) ∧
    default_value emcvnx_percent_full_tuple = .tuple [.float 70, .float 90] ∧
    default_value emcvnx_storage_pools_registration.parameter_valuespec = .dict [] ∧
    (∀ (v : PyVal) (p : String),
      exceptOk (validate_datatype
          emcvnx_storage_pools_registration.parameter_valuespec v p) = true ↔
        ∃ m, v = .dict m ∧
          (∀ k ∈ m.map Prod.fst, k = "percent_full") ∧
          (∀ w, dictLookup m "percent_full" = some w →
            ∃ a b : Rat, w = .tuple [.float a, .float b])) := by
  refine ⟨rfl, rfl, rfl, ?_, ?_, ?_⟩
  · simp [emcvnx_percent_full_tuple, default_value, defaultList]
  · simp [emcvnx_storage_pools_registration, default_value, defaultDictEntries,
      dictRequiredKeys, dictOptionalFlag, dictOfList]
  · intro v p
    show exceptOk (validate_datatype (VS.mk .unset Option.none (.dictionary
      [("percent_full", emcvnx_percent_full_tuple)]
      (.flag true) [] [] [] Option.none)) v p) = true ↔ _
    rw [validate_datatype]
    simp only [validateBody, applyOpt]
    cases v with
    | dict m =>
      rw [exceptOk_bind_unit]
      simp only [Bool.and_eq_true, checkExceedingKeys_ok_iff]
      rw [validateDictElems]
      cases hl : dictLookup m "percent_full" with
      | some w =>
        rw [exceptOk_bind_unit, validateDictElems]
        simp only [Bool.and_eq_true, exceptOk_pure_unit, and_true,
          emcvnx_tuple_validate_iff]
        constructor
        · rintro ⟨⟨a, b, hab⟩, hkeys⟩
          refine ⟨m, rfl, ?_, ?_⟩
          · intro k hk
            simpa using hkeys k hk
          · intro w2 hw2
            rw [hl] at hw2
            injection hw2 with hw2
            subst hw2
            exact ⟨a, b, hab⟩
        · rintro ⟨m2, hm2, hkeys, hpf⟩
          injection hm2 with hm2
          subst hm2
          refine ⟨hpf w hl, ?_⟩
          intro k hk
          simpa using hkeys k hk
      | none =>
        rw [if_neg (by simp [dictOptionalFlag, dictRequiredKeys]), validateDictElems]
        simp only [exceptOk_pure_unit, true_and]
        constructor
        · intro hkeys
          refine ⟨m, rfl, ?_, ?_⟩
          · intro k hk
            simpa using hkeys k hk
          · intro w2 hw2
            rw [hl] at hw2
            cases hw2
        · rintro ⟨m2, hm2, hkeys, -⟩
          injection hm2 with hm2
          subst hm2
          intro k hk
          simpa using hkeys k hk
    | none => simp [exceptOk]
    | bool b => simp [exceptOk]
    | int n => simp [exceptOk]
    | float q => simp [exceptOk]
    | str s => simp [exceptOk]
    | list xs => simp [exceptOk]
    | tuple xs => simp [exceptOk]

/-- C8: `check_levels(value, dsname, params)` with a two-element params
tuple `(warn, crit)` returns status 0 when value < warn, status 1 with
`' (warn/crit at <warn>/<crit>)'` appended to the info text when
warn <= value < crit, and status 2 when value >= crit; with a four-element
tuple `(warn, crit, warn_low, crit_low)` (thresholds in their natural order
crit_low <= warn_low <= warn <= crit) it additionally returns status 1 when
value < warn_low and status 2 when value < crit_low, with
`' (warn/crit below <warn_low>/<crit_low>)'` appended; the performance data
entry carries `(dsname, value, warn, crit)`. -/
theorem C8_check_levels (value warn crit warn_low crit_low : Rat)
    (dsname : String) (r : Rat → String)
    (hwc : warn ≤ crit) (hlw : warn_low ≤ warn) (hcl : crit_low ≤ warn_low) :
    ((check_levels value dsname (some (.two warn crit)) r).2.2 =
        [(dsname, value, some (warn, crit))]) ∧
    ((check_levels value dsname (some (.four warn crit warn_low crit_low)) r).2.2 =
        [(dsname, value, some (warn, crit))]) ∧
    (value < warn →
      (check_levels value dsname (some (.two warn crit)) r).1 = 0 ∧
      (check_levels value dsname (some (.two warn crit)) r).2.1 = "") ∧
    (warn ≤ value → value < crit →
      (check_levels value dsname (some (.two warn crit)) r).1 = 1 ∧
      (check_levels value dsname (some (.two warn crit)) r).2.1 =
        " (warn/crit at " ++ r warn ++ "/" ++ r crit ++ ")") ∧
    (crit ≤ value →
      (check_levels value dsname (some (.two warn crit)) r).1 = 2) ∧
    (crit_low ≤ value → value < warn_low →
      (check_levels value dsname (some (.four warn crit warn_low crit_low)) r).1 = 1 ∧
      (check_levels value dsname (some (.four warn crit warn_low crit_low)) r).2.1 =
        " (warn/crit below " ++ r warn_low ++ "/" ++ r crit_low ++ ")") ∧
    (value < crit_low →
      (check_levels value dsname (some (.four warn crit warn_low crit_low)) r).1 = 2 ∧
      (check_levels value dsname (some (.four warn crit warn_low crit_low)) r).2.1 =
        " (warn/crit below " ++ r warn_low ++ "/" ++ r crit_low ++ ")") := by
  refine ⟨rfl, rfl, ?_, ?_, ?_, ?_, ?_⟩
  · intro h1
    have c1 : ¬ value ≥ crit := by linarith
    have c2 : ¬ value ≥ warn := by linarith
    simp [check_levels, check_boundaries, c1, c2]
  · intro h1 h2
    have c1 : ¬ value ≥ crit := by linarith
    have c2 : value ≥ warn := by linarith
    simp [check_levels, check_boundaries, levelsTextAt, c1, c2]
  · intro h1
    have c1 : value ≥ crit := by linarith
    simp [check_levels, check_boundaries, c1]
  · intro h1 h2
    have c1 : ¬ value ≥ crit := by linarith
    have c2 : ¬ value ≥ warn := by linarith
    have c3 : ¬ value < crit_low := by linarith
    have c4 : value < warn_low := by linarith
    simp [check_levels, check_boundaries, levelsTextBelow, c1, c2, c3, c4]
  · intro h1
    have c1 : ¬ value ≥ crit := by linarith
    have c2 : ¬ value ≥ warn := by linarith
    have c3 : value < crit_low := by linarith
    simp [check_levels, check_boundaries, levelsTextBelow, c1, c2, c3]

/-- C8 witness: the theorem applied at the orderings of the unit-test
levels (3, 6, 1, 0), with value 0 in the lower-warning band and value 5 in
the upper-warning band, rendering thresholds by their numerator. -/
theorem C8_check_levels_witness :
    (check_levels 0 "H_concentration" (some (.four 3 6 1 0))
        (fun q => toString q.num)).1 = 1 ∧
    (check_levels 0 "H_concentration" (some (.four 3 6 1 0))
        (fun q => toString q.num)).2.1 = " (warn/crit below 1/0)" ∧
    (check_levels 5 "battery" (some (.two 3 6)) (fun q => toString q.num)).1 = 1 := by
  have h := C8_check_levels 0 3 6 1 0 "H_concentration" (fun q => toString q.num)
    (by norm_num) (by norm_num) (by norm_num)
  have h2 := C8_check_levels 5 3 6 1 0 "battery" (fun q => toString q.num)
    (by norm_num) (by norm_num) (by norm_num)
  refine ⟨(h.2.2.2.2.2.1 (by norm_num) (by norm_num)).1, ?_, ?_⟩
  · rw [(h.2.2.2.2.2.1 (by norm_num) (by norm_num)).2]
    rfl
  · exact (h2.2.2.2.1 (by norm_num) (by norm_num)).1

/-- C9 (amended): for every valuespec of a class that does not override
`default_value` — i.e. every embedded class except `Tuple`, `Dictionary`,
`Alternative` and `Transform` — a valuespec constructed without a
`default_value` argument returns `canonical_value()` from `default_value()`;
when `default_value` is supplied as a zero-argument function,
`default_value()` returns that function's result, and if evaluating it
raises any exception it falls back to `canonical_value()`. -/
theorem C9_default_value_base (b : VSBody) (va : ValidateArg)
    (hb : usesBaseDefault b = true) :
    (default_value (VS.mk .unset va b) = canonical_value (VS.mk .unset va b)) ∧
    (∀ f : Unit → Except String PyVal,
      default_value (VS.mk (.func f) va b) =
        (match f () with
         | .ok v => v
         | .error _ => canonical_value (VS.mk (.func f) va b))) := by
  cases b
  case tuple es => simp [usesBaseDefault] at hb
  case dictionary elems ok rk ik dk mig => simp [usesBaseDefault] at hb
  case alternative es => simp [usesBaseDefault] at hb
  case transform inner back forth => simp [usesBaseDefault] at hb
  all_goals {
    constructor
    · simp [default_value, canonical_value]
    · intro f
      cases hf : f () with
      | ok v => simp [default_value, canonical_value, hf]
      | error e => simp [default_value, canonical_value, hf]
  }

/-- C9 counterexample: `Tuple([Checkbox(default_value=True)])` is
constructed without a `default_value` argument, yet its `default_value()`
is `(True,)` while its `canonical_value()` is `(False,)` — `Tuple`
overrides `default_value`, refuting the claim as stated for every
valuespec. -/
theorem C9_counterexample :
    tupleIgnoringDefault.default = DefaultArg.unset ∧
    default_value tupleIgnoringDefault ≠ canonical_value tupleIgnoringDefault := by
  constructor
  · rfl
  · simp [tupleIgnoringDefault, default_value, defaultList, canonical_value,
      canonicalBody, canonicalList]

/-- C9 witness: the amended theorem applied to `Checkbox()`: with no
default argument `default_value()` equals `canonical_value()`, and with a
raising zero-argument default function it falls back to
`canonical_value()`. -/
theorem C9_default_value_base_witness :
    usesBaseDefault (.checkbox Option.none Option.none) = true ∧
    default_value (VS.mk .unset Option.none (.checkbox Option.none Option.none)) =
      canonical_value (VS.mk .unset Option.none (.checkbox Option.none Option.none)) ∧
    default_value (VS.mk (.func fun _ => .error "boom") Option.none
        (.checkbox Option.none Option.none)) =
      canonical_value (VS.mk (.func fun _ => .error "boom") Option.none
        (.checkbox Option.none Option.none)) := by
  have hb : usesBaseDefault (.checkbox Option.none Option.none) = true := by
    simp [usesBaseDefault]
  have h := C9_default_value_base (.checkbox Option.none Option.none) Option.none hb
  refine ⟨hb, h.1, ?_⟩
  simpa using h.2 (fun _ => .error "boom")

/-- C10: `Tuple.default_value()` and `Dictionary.default_value()` ignore
any `default_value` constructor argument: for every default argument `d`, a
`Tuple`'s default is the tuple of its elements' default values, and a
`Dictionary`'s is exactly the dict assigning each declared key that is
required (in `_required_keys`, or with `_optional_keys` false) or listed in
`default_keys` its element's default value. -/
theorem C10_container_defaults_ignore_argument (d : DefaultArg) (va : ValidateArg) :
    (∀ es : List VS,
      default_value (VS.mk d va (.tuple es)) = .tuple (es.map default_value)) ∧
    (∀ (elems : List (String × VS)) (ok : OptionalKeysArg)
        (rk ik dk : List String) (mig : Option (PyVal → PyVal)),
      default_value (VS.mk d va (.dictionary elems ok rk ik dk mig)) =
        .dict (dictOfList ((elems.filter (fun e =>
            decide (e.1 ∈ dictRequiredKeys elems ok rk ∨
              dictOptionalFlag ok = false ∨ e.1 ∈ dk))).map
          (fun e => (e.1, default_value e.2))))) := by
  constructor
  · intro es
    rw [default_value, defaultList_map]
  · intro elems ok rk ik dk mig
    rw [default_value, defaultDictEntries_filter]

/-- C10 witness: the theorem applied with a stored default argument `(7,)`
on a concrete one-element `Tuple` and a concrete `Dictionary`, both of
which ignore it. -/
theorem C10_container_defaults_witness :
    default_value (VS.mk (.value (.tuple [.int 7])) Option.none
        (.tuple [VS.mk .unset Option.none (.checkbox Option.none Option.none)])) =
      .tuple [.bool false] ∧
    default_value (VS.mk (.value (.dict [("a", .int 7)])) Option.none
        (.dictionary [("b", VS.mk .unset Option.none (.textAscii false ""))]
          (.flag true) [] [] [] Option.none)) = .dict [] := by
  have h := C10_container_defaults_ignore_argument (.value (.tuple [.int 7]))
    Option.none
  have h2 := C10_container_defaults_ignore_argument (.value (.dict [("a", .int 7)]))
    Option.none
  constructor
  · rw [h.1 [VS.mk .unset Option.none (.checkbox Option.none Option.none)]]
    simp [default_value, canonicalBody]
  · rw [h2.2 [("b", VS.mk .unset Option.none (.textAscii false ""))]
      (.flag true) [] [] [] Option.none]
    simp [dictRequiredKeys, dictOptionalFlag, dictOfList]

end Checkmk

